import Mathlib

/-!
Shallow embedding of the conversation identity & synchronization engine of the
mobile messaging client (source files: all-users.tsx, chatlist.tsx — which
bundles the ChatList and ChatScreen components — and the unnamed route files,
among them a second AllUsers variant, called "part 002" below).

JavaScript strings are modelled as Lean `String`; the default `Array.sort`
comparator (lexicographic comparison) and `String.trim` are modelled explicitly
over the character list so that every definition evaluates inside the kernel.
Firestore is modelled as an explicit store value threaded through the
operations; `addDoc`'s generated document id is modelled by a fresh-id counter;
`serverTimestamp()` is modelled by a `Nat` parameter supplied by the store.
React component state is modelled as an explicit structure, and each snapshot /
error callback as a function from the previous state (and the pushed snapshot)
to the next state.
-/

namespace Chatapp

/-- Lexicographic comparison of character lists, modelling the default
JavaScript string comparison used by `Array.prototype.sort`. -/
def charLe : List Char → List Char → Bool
  | [], _ => true
  | _ :: _, [] => false
  | a :: as, b :: bs => if a = b then charLe as bs else decide (a < b)

/-- `a <= b` on JavaScript strings (lexicographic). -/
def strLe (a b : String) : Bool :=
  charLe a.data b.data

/-- JavaScript `String.prototype.trim`: drop leading and trailing whitespace. -/
def jsTrim (s : String) : String :=
  ⟨((s.data.dropWhile Char.isWhitespace).reverse.dropWhile Char.isWhitespace).reverse⟩

/-- A document of the public `users` collection
(`/artifacts/{appId}/public/data/users`); `id` is the Firestore document id,
which doubles as the user's uid. -/
structure UserDoc where
  id : String
  displayName : Option String
  photoURL : Option String
  deriving Repr, DecidableEq

/-- `AppUser`, the entry type of the user directory list (all-users.tsx). -/
structure AppUser where
  uid : String
  displayName : Option String
  photoURL : Option String
  deriving Repr, DecidableEq

/-- The authenticated Firebase user (the fields this code reads). -/
structure UserRec where
  uid : String
  displayName : Option String
  deriving Repr, DecidableEq

/-- The data fields of a document of the `chats` collection.
`lastMessageTimestamp` is `none` when the field is absent. -/
structure ChatDocData where
  members : List String
  chatName : String
  lastMessageText : String
  lastMessageTimestamp : Option Nat
  deriving Repr, DecidableEq

/-- A `chats` document together with its document id. -/
structure ChatDoc where
  id : String
  data : ChatDocData
  deriving Repr, DecidableEq

/-- The remote `chats` collection plus a counter modelling `addDoc`'s
generated document ids. -/
structure ChatStore where
  chats : List ChatDoc
  nextId : Nat
  deriving Repr, DecidableEq

/-- The next generated document id of `addDoc`. -/
def freshId (s : ChatStore) : String :=
  "doc" ++ toString s.nextId

/-- `[currentUser.uid, otherUser.uid].sort()` (all-users.tsx line 77,
part 002 line 115): a two-element stable sort under the default
lexicographic comparator. -/
def sortedMembers (a b : String) : List String :=
  if strLe a b then [a, b] else [b, a]

/-- `members.join('_')` applied to the sorted pair (all-users.tsx line 78):
the canonical, order-independent key of a participant pair. -/
def canonicalKey (a b : String) : String :=
  String.intercalate "_" (sortedMembers a b)

/-- The chat document created by `handleCreateChat` (all-users.tsx lines
91–96): sorted `members`, a display name built from both participants'
display names (JavaScript interpolates `null` for a missing name),
`lastMessageText: 'New chat created!'` and a server-assigned timestamp. -/
def newChatDoc (cu : UserRec) (other : AppUser) (s : ChatStore) (now : Nat) : ChatDoc :=
  { id := freshId s
  , data :=
    { members := sortedMembers cu.uid other.uid
    , chatName := cu.displayName.getD "null" ++ " & " ++ other.displayName.getD "null"
    , lastMessageText := "New chat created!"
    , lastMessageTimestamp := some now } }

/-- `handleCreateChat` (all-users.tsx lines 73–102). With no authenticated
user it returns without acting. Otherwise it sorts the member pair (the
joined key `members.join('_')` is computed by the source but never used),
queries the `chats` collection for a document whose `members` equals the
sorted pair (`limit(1)`: the first match in the store), navigates to it when
found, and otherwise creates a new chat document and navigates to its
generated id. The returned `Option String` is the conversation id navigated
to (`none` = no navigation). -/
def handleCreateChat (currentUser : Option UserRec) (otherUser : AppUser)
    (s : ChatStore) (now : Nat) : ChatStore × Option String :=
  match currentUser with
  | none => (s, none)
  | some cu =>
    match s.chats.find? (fun d => d.data.members == sortedMembers cu.uid otherUser.uid) with
    | some d => (s, some d.id)
    | none =>
      ({ chats := s.chats ++ [newChatDoc cu otherUser s now], nextId := s.nextId + 1 },
       some (newChatDoc cu otherUser s now).id)

/-- Number of chat records in the store whose `members` field equals `ms`. -/
def membersCount (s : ChatStore) (ms : List String) : Nat :=
  s.chats.countP (fun d => d.data.members == ms)

/-- Sample authenticated user for concrete evaluations. -/
def aliceRec : UserRec := { uid := "a", displayName := some "A" }

/-- Sample directory entry for concrete evaluations. -/
def bobApp : AppUser := { uid := "b", displayName := some "B", photoURL := none }

/-- An empty chats collection. -/
def emptyStore : ChatStore := { chats := [], nextId := 0 }

/-- A store already holding two chat records for the same sorted member pair
(the duplicate state the spec's check-then-create race admits). -/
def dupStore : ChatStore :=
  { chats :=
    [ { id := "c1"
      , data := { members := ["a", "b"], chatName := "A & B"
                , lastMessageText := "", lastMessageTimestamp := some 1 } }
    , { id := "c2"
      , data := { members := ["a", "b"], chatName := "A & B"
                , lastMessageText := "", lastMessageTimestamp := some 2 } } ]
  , nextId := 0 }

/-- An entry of the exposed conversation list (`Chat` in chatlist.tsx). -/
structure Chat where
  id : String
  chatName : String
  lastMessageText : String
  lastMessageTimestamp : Nat
  deriving Repr, DecidableEq

/-- The list construction of the ChatList `onSnapshot` success callback
(chatlist.tsx lines 84–100): a document lacking `lastMessageTimestamp` is
skipped (with a console warning, not an error); `chatName` falls back to
"Unnamed Chat" and `lastMessageText` to "" when empty or missing (the
JavaScript `||` fallback on a falsy string). -/
def buildChatList (docs : List ChatDoc) : List Chat :=
  docs.filterMap fun d =>
    match d.data.lastMessageTimestamp with
    | none => none
    | some ts =>
      some { id := d.id
           , chatName := if d.data.chatName = "" then "Unnamed Chat" else d.data.chatName
           , lastMessageText := d.data.lastMessageText
           , lastMessageTimestamp := ts }

/-- ChatList component state: the exposed conversation list, the loading and
refreshing flags, the AsyncStorage cache entry stored under "@cached_chats",
and the console log. -/
structure ChatListState where
  chats : List Chat
  loading : Bool
  refreshing : Bool
  cache : Option (List Chat)
  log : List String
  deriving Repr, DecidableEq

/-- The ChatList `onSnapshot` success callback (chatlist.tsx lines 83–112):
rebuilds the conversation list from the pushed snapshot alone, replaces the
exposed list wholesale, clears the loading/refreshing flags, and overwrites
the cache entry with the new list. -/
def chatListSnapshotStep (s : ChatListState) (docs : List ChatDoc) : ChatListState :=
  { s with chats := buildChatList docs
         , loading := false
         , refreshing := false
         , cache := some (buildChatList docs) }

/-- The ChatList `onSnapshot` error callback (chatlist.tsx lines 113–117):
logs the error and clears the loading/refreshing flags; the exposed list and
the cache entry are untouched. -/
def chatListOnError (s : ChatListState) (err : String) : ChatListState :=
  { s with loading := false, refreshing := false, log := s.log ++ [err] }

/-- The sender tag of a message row (`'me' | 'other'` in chatlist.tsx). -/
inductive Sender where
  | me
  | other
  deriving Repr, DecidableEq

/-- An entry of the exposed message list (`Message` in chatlist.tsx).
`time` models `toLocaleTimeString()` as decimal rendering of the timestamp. -/
structure Message where
  id : String
  text : String
  userName : String
  userId : String
  timestamp : Option Nat
  time : String
  sender : Sender
  avatar : String
  deriving Repr, DecidableEq

/-- A document of a `messages` collection. `timestamp` is `none` while the
server-assigned value is still pending. -/
structure MsgDoc where
  id : String
  text : String
  userName : String
  userId : String
  timestamp : Option Nat
  deriving Repr, DecidableEq

/-- The list construction of the ChatScreen `onSnapshot` callback
(chatlist.tsx lines 521–537): one exposed entry per snapshot document, the
sender tag computed against the current user's uid. -/
def buildMessages (currentUid : String) (docs : List MsgDoc) : List Message :=
  docs.map fun d =>
    { id := d.id
    , text := d.text
    , userName := d.userName
    , userId := d.userId
    , timestamp := d.timestamp
    , time := match d.timestamp with | some t => toString t | none => ""
    , sender := if d.userId = currentUid then Sender.me else Sender.other
    , avatar := "https://i.pravatar.cc/150?img=3" }

/-- ChatScreen component state: the exposed message list, the input field,
the loading flag, and the console log. -/
structure ChatScreenState where
  messages : List Message
  input : String
  loading : Bool
  log : List String
  deriving Repr, DecidableEq

/-- The ChatScreen `onSnapshot` success callback (chatlist.tsx lines
519–542): replaces the exposed message list wholesale with the list built
from the pushed snapshot and clears the loading flag. -/
def chatScreenSnapshotStep (st : ChatScreenState) (currentUid : String)
    (docs : List MsgDoc) : ChatScreenState :=
  { st with messages := buildMessages currentUid docs, loading := false }

/-- The ChatScreen `onSnapshot` error callback (chatlist.tsx lines 543–546):
logs the error and clears the loading flag; the exposed message list is
untouched. -/
def chatScreenOnError (st : ChatScreenState) (err : String) : ChatScreenState :=
  { st with loading := false, log := st.log ++ [err] }

/-- Whether `sendMessage` performed the write. The guard
`if (!input.trim() || !currentUser) return;` is the synchronous rejection the
specification calls `InvalidMessage`. -/
inductive SendOutcome where
  | invalidInput
  | sent
  deriving Repr, DecidableEq

/-- `sendMessage` (chatlist.tsx lines 552–569): rejects a blank (empty after
trim) input or a missing user synchronously, without writing; otherwise
appends one message document with the trimmed body, the current user's uid
and display name (`'Guest'` fallback), and a server-assigned timestamp, then
clears the input field. `newId` is the document id `addDoc` generates. -/
def sendMessagePress (st : ChatScreenState) (currentUser : Option UserRec)
    (store : List MsgDoc) (now : Nat) (newId : String) :
    ChatScreenState × List MsgDoc × SendOutcome :=
  if jsTrim st.input = "" then (st, store, SendOutcome.invalidInput)
  else
    match currentUser with
    | none => (st, store, SendOutcome.invalidInput)
    | some u =>
      ({ st with input := "" },
       store ++ [{ id := newId
                 , text := jsTrim st.input
                 , userName := u.displayName.getD "Guest"
                 , userId := u.uid
                 , timestamp := some now }],
       SendOutcome.sent)

/-- The collection path the ChatScreen message subscription reads
(chatlist.tsx line 516): a constant path naming the fixed `general_chat`
document, independent of any navigated conversation id. -/
def chatScreenMessagesPath (appId : String) : String :=
  "/artifacts/" ++ appId ++ "/public/data/chats/general_chat/messages"

/-- The message collection belonging to conversation `chatId` — the path
`handleCreateChat` of the part 002 AllUsers variant writes a new chat's seed
message to (part 002 line 128). -/
def chatMessagesPath (appId chatId : String) : String :=
  "/artifacts/" ++ appId ++ "/public/data/chats/" ++ chatId ++ "/messages"

/-- JavaScript `doc.id !== currentUser?.uid`: when `currentUser` is null the
optional chaining yields `undefined`, and a string id is unequal to
`undefined`, so the test is true for every document. -/
def jsIdNeq (id : String) (capturedUid : Option String) : Bool :=
  match capturedUid with
  | some u => id != u
  | none => true

/-- The `fetchUsers` snapshot callback of all-users.tsx (lines 47–68): keeps
every user document whose id differs from `currentUser?.uid`, where
`captured` is the component-state `currentUser` value captured by the
callback's closure when the subscription was created. -/
def fetchUsersSnapshotAU (captured : Option UserRec) (docs : List UserDoc) : List AppUser :=
  (docs.filter fun d => jsIdNeq d.id (captured.map UserRec.uid)).map
    fun d => { uid := d.id, displayName := d.displayName, photoURL := d.photoURL }

/-- The `fetchUsers` snapshot callback of the part 002 AllUsers variant
(lines 54–75): keeps every user document whose id differs from the uid of the
`user` argument passed in directly from the auth callback. -/
def fetchUsersSnapshotP2 (user : UserRec) (docs : List UserDoc) : List AppUser :=
  (docs.filter fun d => d.id != user.uid).map
    fun d => { uid := d.id, displayName := d.displayName, photoURL := d.photoURL }

/-- A chat document carrying a server timestamp. -/
def tsDoc : ChatDoc :=
  { id := "c1"
  , data := { members := ["a", "b"], chatName := "A & B"
            , lastMessageText := "hello", lastMessageTimestamp := some 5 } }

/-- A chat document whose `lastMessageTimestamp` field is absent. -/
def noTsDoc : ChatDoc :=
  { id := "c0"
  , data := { members := ["a", "b"], chatName := "A & B"
            , lastMessageText := "", lastMessageTimestamp := none } }

/-- The exposed conversation entry built from `tsDoc`. -/
def tsChat : Chat :=
  { id := "c1", chatName := "A & B", lastMessageText := "hello", lastMessageTimestamp := 5 }

/-- The ChatList state on mount. -/
def initialChatListState : ChatListState :=
  { chats := [], loading := true, refreshing := false, cache := none, log := [] }

/-- A ChatScreen state whose input field holds a non-blank message. -/
def typedState : ChatScreenState :=
  { messages := [], input := "hi", loading := false, log := [] }

/-- A ChatScreen state whose input field holds only whitespace. -/
def blankState : ChatScreenState :=
  { messages := [], input := "   ", loading := false, log := [] }

/-- A sample confirmed message document. -/
def sampleMsgDoc : MsgDoc :=
  { id := "m1", text := "hi", userName := "U", userId := "u1", timestamp := some 3 }

end Chatapp

namespace Chatapp

/-- Two strings with equal character data are equal. -/
theorem str_ext {a b : String} (h : a.data = b.data) : a = b := by
  cases a
  cases b
  exact congrArg String.mk h

/-- `charLe` is total. -/
theorem charLe_total : ∀ l₁ l₂ : List Char, charLe l₁ l₂ = true ∨ charLe l₂ l₁ = true := by
  intro l₁
  induction l₁ with
  | nil => intro l₂; left; rfl
  | cons a as ih =>
    intro l₂
    cases l₂ with
    | nil => right; rfl
    | cons b bs =>
      by_cases hab : a = b
      · subst hab
        rcases ih bs with h | h <;> simp [charLe, h]
      · rcases lt_trichotomy a b with h | h | h
        · left; simp [charLe, hab, h]
        · exact absurd h hab
        · right; simp [charLe, Ne.symm hab, h]

/-- `charLe` is antisymmetric. -/
theorem charLe_antisymm :
    ∀ l₁ l₂ : List Char, charLe l₁ l₂ = true → charLe l₂ l₁ = true → l₁ = l₂ := by
  intro l₁
  induction l₁ with
  | nil =>
    intro l₂ _ h₂
    cases l₂ with
    | nil => rfl
    | cons b bs => simp [charLe] at h₂
  | cons a as ih =>
    intro l₂ h₁ h₂
    cases l₂ with
    | nil => simp [charLe] at h₁
    | cons b bs =>
      by_cases hab : a = b
      · subst hab
        simp only [charLe, if_pos rfl] at h₁ h₂
        rw [ih bs h₁ h₂]
      · simp only [charLe, if_neg hab, if_neg (Ne.symm hab), decide_eq_true_eq] at h₁ h₂
        exact absurd h₂ (not_lt_of_lt h₁)

/-- `charLe` is reflexive. -/
theorem charLe_refl : ∀ l : List Char, charLe l l = true := by
  intro l
  induction l with
  | nil => rfl
  | cons a as ih => simp [charLe, ih]

/-- C4: for distinct participant ids `a` and `b`, the canonical key computed
when `a` initiates (sorted member pair joined by "_") equals the one computed
when `b` initiates. -/
theorem canonicalKey_comm (a b : String) (h : a ≠ b) :
    canonicalKey a b = canonicalKey b a := by
  cases hab : strLe a b <;> cases hba : strLe b a
  · exfalso
    simp only [strLe] at hab hba
    rcases charLe_total a.data b.data with ht | ht <;> simp_all
  · simp [canonicalKey, sortedMembers, hab, hba]
  · simp [canonicalKey, sortedMembers, hab, hba]
  · exact absurd
      (str_ext (charLe_antisymm a.data b.data
        (by simpa [strLe] using hab) (by simpa [strLe] using hba))) h

/-- Witness for C4 at the concrete pair "alice"/"bob". -/
theorem canonicalKey_comm_witness :
    ("alice" : String) ≠ "bob" ∧ canonicalKey "alice" "bob" = canonicalKey "bob" "alice" :=
  ⟨by decide, canonicalKey_comm "alice" "bob" (by decide)⟩

/-- Counterexample to C1 as stated: on a store that already holds two chat
records for the sorted pair ["a","b"], two sequential `handleCreateChat` calls
leave two records for that pair, not exactly one (the `limit(1)` query finds a
record, so nothing is created and nothing is deduplicated). -/
theorem handleCreateChat_duplicate_pair_counterexample :
    membersCount
      (handleCreateChat (some aliceRec) bobApp
        (handleCreateChat (some aliceRec) bobApp dupStore 7).1 8).1
      (sortedMembers aliceRec.uid bobApp.uid) = 2
    ∧ ¬ membersCount
        (handleCreateChat (some aliceRec) bobApp
          (handleCreateChat (some aliceRec) bobApp dupStore 7).1 8).1
        (sortedMembers aliceRec.uid bobApp.uid) = 1 := by
  decide

/-- C1 (amended): with no concurrent writer, two sequential `handleCreateChat`
calls from the same user targeting the same other participant navigate to the
same conversation id both times and the first call adds at most one record —
unconditionally, on every store state; and provided the store initially holds
at most one record for the sorted member pair, exactly one record for that
pair remains afterwards. -/
theorem handleCreateChat_sequential_idempotent
    (cu : UserRec) (other : AppUser) (s : ChatStore) (t₁ t₂ : Nat) :
    (handleCreateChat (some cu) other (handleCreateChat (some cu) other s t₁).1 t₂).2
        = (handleCreateChat (some cu) other s t₁).2
    ∧ ((handleCreateChat (some cu) other s t₁).2).isSome = true
    ∧ (handleCreateChat (some cu) other s t₁).1.chats.length ≤ s.chats.length + 1
    ∧ (membersCount s (sortedMembers cu.uid other.uid) ≤ 1 →
        membersCount
          (handleCreateChat (some cu) other (handleCreateChat (some cu) other s t₁).1 t₂).1
          (sortedMembers cu.uid other.uid) = 1) := by
  cases hfind : s.chats.find? (fun d => d.data.members == sortedMembers cu.uid other.uid) with
  | some d =>
    have e₁ : handleCreateChat (some cu) other s t₁ = (s, some d.id) := by
      simp [handleCreateChat, hfind]
    have e₂ : handleCreateChat (some cu) other s t₂ = (s, some d.id) := by
      simp [handleCreateChat, hfind]
    have hpd := List.find?_some hfind
    have hpos : 0 < membersCount s (sortedMembers cu.uid other.uid) :=
      List.countP_pos_iff.mpr ⟨d, List.mem_of_find?_eq_some hfind, hpd⟩
    refine ⟨?_, ?_, ?_, ?_⟩
    · rw [e₁]
      show (handleCreateChat (some cu) other s t₂).2 = (s, some d.id).2
      rw [e₂]
    · rw [e₁]; rfl
    · rw [e₁]
      show s.chats.length ≤ s.chats.length + 1
      omega
    · intro hle
      have hone : membersCount s (sortedMembers cu.uid other.uid) = 1 := le_antisymm hle hpos
      rw [e₁]
      show membersCount (handleCreateChat (some cu) other s t₂).1
          (sortedMembers cu.uid other.uid) = 1
      rw [e₂]
      exact hone
  | none =>
    have hzero : s.chats.countP (fun d => d.data.members == sortedMembers cu.uid other.uid) = 0 :=
      List.countP_eq_zero.mpr (List.find?_eq_none.mp hfind)
    have hmem : (fun d => d.data.members == sortedMembers cu.uid other.uid)
        (newChatDoc cu other s t₁) = true := by
      simp [newChatDoc]
    have e₁ : handleCreateChat (some cu) other s t₁ =
        (⟨s.chats ++ [newChatDoc cu other s t₁], s.nextId + 1⟩,
         some (newChatDoc cu other s t₁).id) := by
      simp [handleCreateChat, hfind]
    have efind : (s.chats ++ [newChatDoc cu other s t₁]).find?
        (fun d => d.data.members == sortedMembers cu.uid other.uid)
        = some (newChatDoc cu other s t₁) := by
      rw [List.find?_append, hfind]
      simp [List.find?, hmem]
    have e₂ : handleCreateChat (some cu) other
        (⟨s.chats ++ [newChatDoc cu other s t₁], s.nextId + 1⟩ : ChatStore) t₂
        = (⟨s.chats ++ [newChatDoc cu other s t₁], s.nextId + 1⟩,
           some (newChatDoc cu other s t₁).id) := by
      simp [handleCreateChat, efind]
    refine ⟨?_, ?_, ?_, ?_⟩
    · rw [e₁]
      show (handleCreateChat (some cu) other
          (⟨s.chats ++ [newChatDoc cu other s t₁], s.nextId + 1⟩ : ChatStore) t₂).2
          = some (newChatDoc cu other s t₁).id
      rw [e₂]
    · rw [e₁]; rfl
    · rw [e₁]
      show (s.chats ++ [newChatDoc cu other s t₁]).length ≤ s.chats.length + 1
      simp
    · intro _
      rw [e₁]
      show membersCount (handleCreateChat (some cu) other
          (⟨s.chats ++ [newChatDoc cu other s t₁], s.nextId + 1⟩ : ChatStore) t₂).1
          (sortedMembers cu.uid other.uid) = 1
      rw [e₂]
      show (s.chats ++ [newChatDoc cu other s t₁]).countP
          (fun d => d.data.members == sortedMembers cu.uid other.uid) = 1
      rw [List.countP_append, hzero]
      simp [List.countP_cons, hmem]

/-- Witness for C1 (amended) on the empty store, discharging the
at-most-one-record proviso of the final conjunct there. -/
theorem handleCreateChat_sequential_idempotent_witness :
    membersCount emptyStore (sortedMembers aliceRec.uid bobApp.uid) ≤ 1
    ∧ ((handleCreateChat (some aliceRec) bobApp
          (handleCreateChat (some aliceRec) bobApp emptyStore 1).1 2).2
        = (handleCreateChat (some aliceRec) bobApp emptyStore 1).2)
    ∧ ((handleCreateChat (some aliceRec) bobApp emptyStore 1).2).isSome = true
    ∧ (handleCreateChat (some aliceRec) bobApp emptyStore 1).1.chats.length
        ≤ emptyStore.chats.length + 1
    ∧ membersCount
        (handleCreateChat (some aliceRec) bobApp
          (handleCreateChat (some aliceRec) bobApp emptyStore 1).1 2).1
        (sortedMembers aliceRec.uid bobApp.uid) = 1 :=
  ⟨by decide,
   (handleCreateChat_sequential_idempotent aliceRec bobApp emptyStore 1 2).1,
   (handleCreateChat_sequential_idempotent aliceRec bobApp emptyStore 1 2).2.1,
   (handleCreateChat_sequential_idempotent aliceRec bobApp emptyStore 1 2).2.2.1,
   (handleCreateChat_sequential_idempotent aliceRec bobApp emptyStore 1 2).2.2.2 (by decide)⟩

/-- Counterexample to C5 as stated: `handleCreateChat` contains no
self-participant validation. Invoked by "u1" targeting "u1" on an empty store
it returns a conversation id (no `InvalidParticipants` failure exists in the
code) and creates a conversation record whose two members are both "u1". -/
theorem handleCreateChat_self_counterexample :
    ((handleCreateChat (some ⟨"u1", some "U"⟩) ⟨"u1", some "U", none⟩ emptyStore 3).2).isSome
        = true
    ∧ membersCount
        (handleCreateChat (some ⟨"u1", some "U"⟩) ⟨"u1", some "U", none⟩ emptyStore 3).1
        ["u1", "u1"] = 1 := by
  decide

/-- C5 (amended): `handleCreateChat` performs no self-target validation: a
call targeting oneself succeeds (navigates to a conversation id), and when the
store holds no record with both members equal to the caller, it creates
exactly one such equal-member record. A conversation with oneself is prevented
only upstream, by the user directory excluding the current user's entry. -/
theorem handleCreateChat_self_no_validation
    (cu : UserRec) (dn pu : Option String) (s : ChatStore) (t : Nat)
    (h : membersCount s [cu.uid, cu.uid] = 0) :
    ((handleCreateChat (some cu) ⟨cu.uid, dn, pu⟩ s t).2).isSome = true
    ∧ membersCount (handleCreateChat (some cu) ⟨cu.uid, dn, pu⟩ s t).1 [cu.uid, cu.uid] = 1 := by
  have hsm : sortedMembers cu.uid (⟨cu.uid, dn, pu⟩ : AppUser).uid = [cu.uid, cu.uid] := by
    simp [sortedMembers, strLe, charLe_refl]
  have hfind : s.chats.find?
      (fun d => d.data.members == sortedMembers cu.uid (⟨cu.uid, dn, pu⟩ : AppUser).uid)
      = none := by
    rw [hsm]
    exact List.find?_eq_none.mpr (by
      intro x hx
      have := List.countP_eq_zero.mp h x hx
      simpa using this)
  have hmem : (fun d => d.data.members
      == sortedMembers cu.uid (⟨cu.uid, dn, pu⟩ : AppUser).uid)
      (newChatDoc cu ⟨cu.uid, dn, pu⟩ s t) = true := by
    simp [newChatDoc]
  have e₁ : handleCreateChat (some cu) ⟨cu.uid, dn, pu⟩ s t =
      ({ chats := s.chats ++ [newChatDoc cu ⟨cu.uid, dn, pu⟩ s t], nextId := s.nextId + 1 },
       some (newChatDoc cu ⟨cu.uid, dn, pu⟩ s t).id) := by
    simp [handleCreateChat, hfind]
  constructor
  · rw [e₁]; rfl
  · rw [e₁]
    show (s.chats ++ [newChatDoc cu ⟨cu.uid, dn, pu⟩ s t]).countP
        (fun d => d.data.members == [cu.uid, cu.uid]) = 1
    rw [List.countP_append]
    have hz : s.chats.countP (fun d => d.data.members == [cu.uid, cu.uid]) = 0 := h
    rw [hz]
    have hmem' : (fun d => d.data.members == [cu.uid, cu.uid])
        (newChatDoc cu ⟨cu.uid, dn, pu⟩ s t) = true := by
      simp [newChatDoc, hsm]
    simp [List.countP_cons, hmem']

/-- Witness for C5 (amended) on the empty store. -/
theorem handleCreateChat_self_no_validation_witness :
    membersCount emptyStore ["u1", "u1"] = 0
    ∧ (((handleCreateChat (some ⟨"u1", some "U"⟩) ⟨"u1", some "U", none⟩ emptyStore 4).2).isSome
          = true
      ∧ membersCount
          (handleCreateChat (some ⟨"u1", some "U"⟩) ⟨"u1", some "U", none⟩ emptyStore 4).1
          ["u1", "u1"] = 1) :=
  ⟨by decide,
   handleCreateChat_self_no_validation ⟨"u1", some "U"⟩ (some "U") none emptyStore 4 (by decide)⟩

/-- Every entry of a built conversation list carries the id of a snapshot
document. -/
theorem mem_buildChatList_id {c : Chat} {docs : List ChatDoc}
    (hc : c ∈ buildChatList docs) : ∃ d ∈ docs, c.id = d.id := by
  unfold buildChatList at hc
  rw [List.mem_filterMap] at hc
  obtain ⟨d, hd, hcd⟩ := hc
  refine ⟨d, hd, ?_⟩
  cases hts : d.data.lastMessageTimestamp with
  | none => rw [hts] at hcd; simp at hcd
  | some ts =>
    rw [hts] at hcd
    simp only [Option.some.injEq] at hcd
    rw [← hcd]

/-- Every entry of a built message list carries the id of a snapshot
document. -/
theorem mem_buildMessages_id {m : Message} {uid : String} {docs : List MsgDoc}
    (hm : m ∈ buildMessages uid docs) : ∃ d ∈ docs, m.id = d.id := by
  unfold buildMessages at hm
  rw [List.mem_map] at hm
  obtain ⟨d, hd, hmd⟩ := hm
  exact ⟨d, hd, by rw [← hmd]⟩

/-- C2: after snapshots S₁ then S₂ are delivered, the exposed conversation
list (ChatList) and message list (ChatScreen) are computed from S₂ alone —
snapshot processing replaces the list wholesale — and every exposed entry's
id belongs to a document of S₂, so nothing present only in S₁ survives. -/
theorem snapshot_replaces_list_wholesale
    (s₀ : ChatListState) (S₁ S₂ : List ChatDoc)
    (st₀ : ChatScreenState) (uid : String) (M₁ M₂ : List MsgDoc) :
    (chatListSnapshotStep (chatListSnapshotStep s₀ S₁) S₂).chats = buildChatList S₂
    ∧ ((chatListSnapshotStep (chatListSnapshotStep s₀ S₁) S₂).chats.all
        (fun c => (S₂.map ChatDoc.id).contains c.id)) = true
    ∧ (chatScreenSnapshotStep (chatScreenSnapshotStep st₀ uid M₁) uid M₂).messages
        = buildMessages uid M₂
    ∧ ((chatScreenSnapshotStep (chatScreenSnapshotStep st₀ uid M₁) uid M₂).messages.all
        (fun m => (M₂.map MsgDoc.id).contains m.id)) = true := by
  refine ⟨rfl, ?_, rfl, ?_⟩
  · rw [List.all_eq_true]
    intro c hc
    obtain ⟨d, hd, hid⟩ := mem_buildChatList_id hc
    simp only [List.contains_iff_exists_mem_beq]
    exact ⟨d.id, List.mem_map_of_mem ChatDoc.id hd, by rw [hid]; exact beq_self_eq_true d.id⟩
  · rw [List.all_eq_true]
    intro m hm
    obtain ⟨d, hd, hid⟩ := mem_buildMessages_id hm
    simp only [List.contains_iff_exists_mem_beq]
    exact ⟨d.id, List.mem_map_of_mem MsgDoc.id hd, by rw [hid]; exact beq_self_eq_true d.id⟩

/-- C3: evidence for the scoping bug. The collection the ChatScreen message
subscription reads is the constant `general_chat` message collection for
every appId, and for a navigated conversation id such as "c42" it differs
from that conversation's own message collection (to which, for instance, the
part 002 `handleCreateChat` writes the seed message of a new chat). -/
theorem chatScreen_subscription_path_constant :
    (∀ appId : String, chatScreenMessagesPath appId = chatMessagesPath appId "general_chat")
    ∧ chatScreenMessagesPath "app" ≠ chatMessagesPath "app" "c42" := by
  constructor
  · intro appId
    show ("/artifacts/" ++ appId) ++ "/public/data/chats/general_chat/messages"
        = ((("/artifacts/" ++ appId) ++ "/public/data/chats/") ++ "general_chat") ++ "/messages"
    have hlit : ("/public/data/chats/general_chat/messages" : String)
        = ("/public/data/chats/" ++ "general_chat") ++ "/messages" := by decide
    rw [hlit]
    rw [← String.append_assoc, ← String.append_assoc]
  · decide

/-- C6: a blank (empty or whitespace-only) input is rejected synchronously —
`sendMessage` returns at once with the screen state and the message store
both unchanged and no document written; this guard is the `InvalidMessage`
rejection of the specification. -/
theorem sendMessage_rejects_blank (st : ChatScreenState) (cu : Option UserRec)
    (store : List MsgDoc) (now : Nat) (newId : String) (h : jsTrim st.input = "") :
    sendMessagePress st cu store now newId = (st, store, SendOutcome.invalidInput) := by
  simp [sendMessagePress, h]

/-- Witness for C6 on a whitespace-only input field. -/
theorem sendMessage_rejects_blank_witness :
    jsTrim blankState.input = ""
    ∧ sendMessagePress blankState (some ⟨"u1", some "U"⟩) [] 5 "m1"
        = (blankState, [], SendOutcome.invalidInput) :=
  ⟨by decide, sendMessage_rejects_blank blankState (some ⟨"u1", some "U"⟩) [] 5 "m1" (by decide)⟩

/-- Counterexample to C7 as stated: `sendMessage` performs no optimistic
insertion. Sending "hi" from an empty exposed list performs the write
(outcome `sent`, one document appended) yet the exposed message list is still
empty when the call returns — no provisional entry is present. -/
theorem sendMessage_no_provisional_counterexample :
    (sendMessagePress typedState (some ⟨"u1", some "U"⟩) [] 5 "m1").2.2 = SendOutcome.sent
    ∧ ((sendMessagePress typedState (some ⟨"u1", some "U"⟩) [] 5 "m1").2.1).length = 1
    ∧ ((sendMessagePress typedState (some ⟨"u1", some "U"⟩) [] 5 "m1").1).messages = [] := by
  decide

/-- C7 (amended): `sendMessage` never touches the exposed message list — the
outgoing message becomes visible only when a pushed snapshot containing its
confirmed document arrives; and because each snapshot rebuilds the list
wholesale (one entry per document, keyed by document id), a snapshot whose
document ids are distinct shows the confirmed message exactly once, so no
duplication can occur. -/
theorem sendMessage_deferred_visibility
    (st : ChatScreenState) (cu : Option UserRec) (store : List MsgDoc)
    (now : Nat) (newId : String) (uid mid : String) (docs : List MsgDoc)
    (hnd : (docs.map MsgDoc.id).Nodup) (hm : mid ∈ docs.map MsgDoc.id) :
    ((sendMessagePress st cu store now newId).1).messages = st.messages
    ∧ (buildMessages uid docs).countP (fun m => m.id == mid) = 1 := by
  constructor
  · unfold sendMessagePress
    split
    · rfl
    · cases cu with
      | none => rfl
      | some u => rfl
  · have h₁ : (buildMessages uid docs).countP (fun m => m.id == mid)
        = docs.countP (fun d => d.id == mid) := by
      unfold buildMessages
      rw [List.countP_map]
      rfl
    have h₂ : docs.countP (fun d => d.id == mid) = (docs.map MsgDoc.id).count mid := by
      rw [List.count_eq_countP, List.countP_map]
      rfl
    rw [h₁, h₂]
    exact List.count_eq_one_of_mem hnd hm

/-- Witness for C7 (amended) on a singleton snapshot. -/
theorem sendMessage_deferred_visibility_witness :
    ([sampleMsgDoc].map MsgDoc.id).Nodup
    ∧ "m1" ∈ [sampleMsgDoc].map MsgDoc.id
    ∧ (((sendMessagePress typedState (some ⟨"u1", some "U"⟩) [] 5 "m9").1).messages
          = typedState.messages
      ∧ (buildMessages "u1" [sampleMsgDoc]).countP (fun m => m.id == "m1") = 1) :=
  ⟨by decide, by decide,
   sendMessage_deferred_visibility typedState (some ⟨"u1", some "U"⟩) [] 5 "m9" "u1" "m1"
     [sampleMsgDoc] (by decide) (by decide)⟩

/-- C8: the subscription error handlers only log the error and clear the
loading/refreshing flags — the exposed conversation list, its cache entry,
and the exposed message list are all left unchanged, so the last good
snapshot remains the exposed state. -/
theorem onError_preserves_lists (s : ChatListState) (st : ChatScreenState) (e₁ e₂ : String) :
    (chatListOnError s e₁).chats = s.chats
    ∧ (chatListOnError s e₁).cache = s.cache
    ∧ (chatScreenOnError st e₂).messages = st.messages :=
  ⟨rfl, rfl, rfl⟩

/-- C9: a snapshot document whose `lastMessageTimestamp` field is absent
contributes nothing to the built conversation list, wherever it sits in the
snapshot (erasing it from any position leaves the built list unchanged);
every exposed entry originates from a snapshot document whose timestamp is
present and is rendered with that document's own timestamp, never a
fallback; the cached copy is exactly the exposed list; and the skip writes
nothing to the error log (the console warning aside, it is silent). -/
theorem chatList_skips_missing_timestamp (docs : List ChatDoc) (s : ChatListState) :
    (∀ (l₁ l₂ : List ChatDoc) (d : ChatDoc), d.data.lastMessageTimestamp = none →
        buildChatList (l₁ ++ d :: l₂) = buildChatList (l₁ ++ l₂))
    ∧ (∀ c ∈ (chatListSnapshotStep s docs).chats,
        ∃ d ∈ docs, d.data.lastMessageTimestamp = some c.lastMessageTimestamp ∧ c.id = d.id)
    ∧ (chatListSnapshotStep s docs).cache = some ((chatListSnapshotStep s docs).chats)
    ∧ (chatListSnapshotStep s docs).log = s.log := by
  refine ⟨?_, ?_, rfl, rfl⟩
  · intro l₁ l₂ d hd
    unfold buildChatList
    rw [List.filterMap_append, List.filterMap_append, List.filterMap_cons, hd]
  · intro c hc
    have hc' : c ∈ buildChatList docs := hc
    unfold buildChatList at hc'
    rw [List.mem_filterMap] at hc'
    obtain ⟨d, hd, hcd⟩ := hc'
    cases hts : d.data.lastMessageTimestamp with
    | none => rw [hts] at hcd; simp at hcd
    | some ts =>
      rw [hts] at hcd
      simp only [Option.some.injEq] at hcd
      refine ⟨d, hd, ?_, ?_⟩
      · rw [← hcd]
        exact hts
      · rw [← hcd]

/-- Witness for C9 on a two-document snapshot whose timestampless document
sits in a non-head position: erasing it from the middle leaves the built list
unchanged, the entry built from the timestamped document originates from it,
the cache holds exactly the exposed list, and the log is untouched. -/
theorem chatList_skips_missing_timestamp_witness :
    noTsDoc.data.lastMessageTimestamp = none
    ∧ buildChatList ([tsDoc] ++ noTsDoc :: [tsDoc]) = buildChatList ([tsDoc] ++ [tsDoc])
    ∧ tsChat ∈ (chatListSnapshotStep initialChatListState [tsDoc, noTsDoc]).chats
    ∧ (∃ d ∈ [tsDoc, noTsDoc],
        d.data.lastMessageTimestamp = some tsChat.lastMessageTimestamp ∧ tsChat.id = d.id)
    ∧ (chatListSnapshotStep initialChatListState [tsDoc, noTsDoc]).cache
        = some ((chatListSnapshotStep initialChatListState [tsDoc, noTsDoc]).chats)
    ∧ (chatListSnapshotStep initialChatListState [tsDoc, noTsDoc]).log
        = initialChatListState.log :=
  ⟨rfl,
   (chatList_skips_missing_timestamp [tsDoc, noTsDoc] initialChatListState).1
     [tsDoc] [tsDoc] noTsDoc rfl,
   by decide,
   (chatList_skips_missing_timestamp [tsDoc, noTsDoc] initialChatListState).2.1
     tsChat (by decide),
   (chatList_skips_missing_timestamp [tsDoc, noTsDoc] initialChatListState).2.2.1,
   (chatList_skips_missing_timestamp [tsDoc, noTsDoc] initialChatListState).2.2.2⟩

/-- C10: evidence for the self-filter divergence between the two `fetchUsers`
variants. The all-users.tsx snapshot callback compares against the
`currentUser` state captured by its closure; that value is still null when
the subscription is created inside the mount effect's auth callback, so with
`captured = none` the authenticated user's own document "u1" passes the
filter and appears in the exposed directory list. The part 002 variant,
which receives the user as an argument, excludes it. -/
theorem fetchUsers_self_filter_divergence :
    ((fetchUsersSnapshotAU none
        [⟨"u1", some "Me", none⟩, ⟨"u2", some "Other", none⟩]).map AppUser.uid
      = ["u1", "u2"])
    ∧ ((fetchUsersSnapshotP2 ⟨"u1", some "Me"⟩
        [⟨"u1", some "Me", none⟩, ⟨"u2", some "Other", none⟩]).map AppUser.uid
      = ["u2"]) := by
  decide

end Chatapp
